import Mathlib

/-!
Verification development for the imap-mcp-server repository.

The embedded code comes from `src/tools/email-tools.ts` (the MCP tool
handlers) and `src/services/imap-service.ts` (the `ImapService` class).
JavaScript `undefined` is modelled as `Option.none`; `Date` values are
modelled as `Nat` timestamps; the external `node-imap` connection primitives
(addFlags, delFlags, expunge, move) are modelled on an explicit folder state
following RFC 3501 semantics; success or failure of a network primitive is
injected as an explicit `Bool` parameter where the source has distinct
callback error paths.
-/

/-- A protocol search term as produced by `ImapService.buildSearchCriteria`:
a keyed pair such as `['FROM', value]`, a keyed date pair such as
`['SINCE', date]`, or a bare atom such as `'SEEN'` or `'ALL'`. -/
inductive SearchTerm where
  | keyed (key : String) (value : String)
  | dated (key : String) (value : Nat)
  | atom (name : String)
deriving DecidableEq, Repr

/-- The `SearchCriteria` object (`src/types/index.ts` shape as used by
`ImapService.buildSearchCriteria`): every predicate is optional, `none`
standing for JavaScript `undefined`. -/
structure SearchCriteria where
  «from» : Option String := none
  «to» : Option String := none
  subject : Option String := none
  body : Option String := none
  since : Option Nat := none
  before : Option Nat := none
  seen : Option Bool := none
  flagged : Option Bool := none
  answered : Option Bool := none
  draft : Option Bool := none
deriving DecidableEq, Repr

/-- What one `if (criteria.x) { searchArray.push(['KEY', criteria.x]) }`
statement of `buildSearchCriteria` appends for a text predicate: the guard is
JavaScript truthiness, so an undefined or empty string appends nothing. -/
def textTerm (key : String) (o : Option String) : List SearchTerm :=
  match o with
  | some s => if s = "" then [] else [SearchTerm.keyed key s]
  | none => []

/-- What one `if (criteria.x) { searchArray.push(['KEY', criteria.x]) }`
statement of `buildSearchCriteria` appends for a date predicate: a `Date`
object is always truthy, so any set date appends its term. -/
def dateTerm (key : String) (o : Option Nat) : List SearchTerm :=
  match o with
  | some d => [SearchTerm.dated key d]
  | none => []

/-- What one `if (criteria.x !== undefined) { searchArray.push(criteria.x ?
'POS' : 'NEG') }` statement of `buildSearchCriteria` appends for a tri-state
predicate. -/
def triTerm (pos neg : String) (o : Option Bool) : List SearchTerm :=
  match o with
  | some b => [SearchTerm.atom (if b then pos else neg)]
  | none => []

namespace ImapService

/-- `ImapService.buildSearchCriteria` (imap-service.ts lines 670-705). Each
`let` line mirrors one conditional `searchArray.push(...)` statement, with
the guard-and-element pair factored into `textTerm`, `dateTerm` or `triTerm`
according to the predicate's kind. The final line is
`return searchArray.length > 0 ? searchArray : ['ALL']`. -/
def buildSearchCriteria (criteria : SearchCriteria) : List SearchTerm :=
  let searchArray : List SearchTerm := []
  let searchArray := searchArray ++ textTerm "FROM" criteria.«from»
  let searchArray := searchArray ++ textTerm "TO" criteria.«to»
  let searchArray := searchArray ++ textTerm "SUBJECT" criteria.subject
  let searchArray := searchArray ++ textTerm "BODY" criteria.body
  let searchArray := searchArray ++ dateTerm "SINCE" criteria.since
  let searchArray := searchArray ++ dateTerm "BEFORE" criteria.before
  let searchArray := searchArray ++ triTerm "SEEN" "UNSEEN" criteria.seen
  let searchArray := searchArray ++ triTerm "FLAGGED" "UNFLAGGED" criteria.flagged
  let searchArray := searchArray ++ triTerm "ANSWERED" "UNANSWERED" criteria.answered
  let searchArray := searchArray ++ triTerm "DRAFT" "UNDRAFT" criteria.draft
  if searchArray.length > 0 then searchArray else [SearchTerm.atom "ALL"]

end ImapService

/-- JavaScript truthiness of an optional string: `undefined` and the empty
string are falsy. -/
def truthyStr : Option String → Bool
  | none => false
  | some s => !(s == "")

/-- The translated terms in the fixed field order FROM, TO, SUBJECT, BODY,
SINCE, BEFORE, SEEN, FLAGGED, ANSWERED, DRAFT, one contribution per truthy
predicate; written from the specification's description of `translate`
restricted to truthy predicates, for comparison with the code's
`buildSearchCriteria`. -/
def specOrderedTerms (c : SearchCriteria) : List SearchTerm :=
  textTerm "FROM" c.«from» ++ textTerm "TO" c.«to» ++ textTerm "SUBJECT" c.subject ++
    textTerm "BODY" c.body ++ dateTerm "SINCE" c.since ++ dateTerm "BEFORE" c.before ++
    triTerm "SEEN" "UNSEEN" c.seen ++ triTerm "FLAGGED" "UNFLAGGED" c.flagged ++
    triTerm "ANSWERED" "UNANSWERED" c.answered ++ triTerm "DRAFT" "UNDRAFT" c.draft

/-- The number of predicates of a `SearchCriteria` that are set at all
(not `undefined`), regardless of truthiness. -/
def countSet (c : SearchCriteria) : Nat :=
  (if c.«from».isSome then 1 else 0) + (if c.«to».isSome then 1 else 0) +
    (if c.subject.isSome then 1 else 0) + (if c.body.isSome then 1 else 0) +
    (if c.since.isSome then 1 else 0) + (if c.before.isSome then 1 else 0) +
    (if c.seen.isSome then 1 else 0) + (if c.flagged.isSome then 1 else 0) +
    (if c.answered.isSome then 1 else 0) + (if c.draft.isSome then 1 else 0)

/-- The number of predicates of a `SearchCriteria` that are truthy in the
JavaScript sense: text predicates count only when set and non-empty, date and
tri-state predicates whenever set. -/
def countTruthy (c : SearchCriteria) : Nat :=
  (if truthyStr c.«from» then 1 else 0) + (if truthyStr c.«to» then 1 else 0) +
    (if truthyStr c.subject then 1 else 0) + (if truthyStr c.body then 1 else 0) +
    (if c.since.isSome then 1 else 0) + (if c.before.isSome then 1 else 0) +
    (if c.seen.isSome then 1 else 0) + (if c.flagged.isSome then 1 else 0) +
    (if c.answered.isSome then 1 else 0) + (if c.draft.isSome then 1 else 0)

/-- The error outcomes observable from the embedded code. `ImapService`
raises only errors propagated from the underlying `node-imap` callbacks
(flag, expunge, move, connect) or its own missing-session check; no other
error kind exists anywhere in the source. -/
inductive ImapError where
  | flagFailure
  | expungeFailure
  | moveFailure
  | connectionFailure
  | noActiveSession
deriving DecidableEq, Repr

/-- One message of the selected folder: its server-assigned uid and its
current flag set. -/
structure Msg where
  uid : Nat
  flags : List String
deriving DecidableEq, Repr

/-- The state of one selected folder, as the server holds it. -/
abbrev FolderSt := List Msg

/-- Model of the external `node-imap` `connection.addFlags` primitive,
following RFC 3501 `UID STORE +FLAGS` semantics: the flag is added to every
message whose uid occurs in the given batch; uids absent from the folder are
ignored without any error. -/
def connAddFlags (st : FolderSt) (uids : List Nat) (flag : String) : FolderSt :=
  st.map fun m =>
    if uids.contains m.uid then
      { m with flags := if m.flags.contains flag then m.flags else m.flags ++ [flag] }
    else m

/-- Model of the external `node-imap` `connection.delFlags` primitive,
following RFC 3501 `UID STORE -FLAGS` semantics: the flag is removed from
every message whose uid occurs in the given batch; absent uids are ignored. -/
def connDelFlags (st : FolderSt) (uids : List Nat) (flag : String) : FolderSt :=
  st.map fun m =>
    if uids.contains m.uid then
      { m with flags := m.flags.filter (fun f => f != flag) }
    else m

/-- Model of the external `node-imap` `connection.expunge` primitive: every
message of the selected folder carrying the `\Deleted` flag is removed. -/
def connExpunge (st : FolderSt) : FolderSt :=
  st.filter fun m => !(m.flags.contains "\\Deleted")

/-- Model of the external `node-imap` `connection.move` primitive: the
messages of the source folder whose uid occurs in the batch are appended to
the destination folder; absent uids are ignored. -/
def connMove (src dst : FolderSt) (uids : List Nat) : FolderSt × FolderSt :=
  (src.filter fun m => !(uids.contains m.uid),
    dst ++ src.filter fun m => uids.contains m.uid)

namespace ImapService

/-- `ImapService.markAsRead` (imap-service.ts lines 587-597): select the
folder, then issue one `addFlags(uid, '\Seen')` with the given scalar-or-batch
uid argument. No membership validation is performed before the call. `ok`
injects whether the underlying callback reports an error; on error the
rejection is propagated unchanged. -/
def markAsRead (st : FolderSt) (uids : List Nat) (ok : Bool) :
    FolderSt × Except ImapError Unit :=
  if ok then (connAddFlags st uids "\\Seen", .ok ())
  else (st, .error .flagFailure)

/-- `ImapService.markAsUnread` (imap-service.ts lines 599-609): select the
folder, then issue one `delFlags(uid, '\Seen')`. -/
def markAsUnread (st : FolderSt) (uids : List Nat) (ok : Bool) :
    FolderSt × Except ImapError Unit :=
  if ok then (connDelFlags st uids "\\Seen", .ok ())
  else (st, .error .flagFailure)

/-- `ImapService.deleteEmail` (imap-service.ts lines 611-627): select the
folder, `addFlags(uid, '\Deleted')`, and in its success callback `expunge()`.
A flag-step error rejects at once; an expunge error rejects with the expunge
error, and nothing else is done — the code contains no compensating
`delFlags`. `addOk` and `expungeOk` inject the two callbacks' outcomes. -/
def deleteEmail (st : FolderSt) (uids : List Nat) (addOk expungeOk : Bool) :
    FolderSt × Except ImapError Unit :=
  if addOk then
    let st1 := connAddFlags st uids "\\Deleted"
    if expungeOk then (connExpunge st1, .ok ())
    else (st1, .error .expungeFailure)
  else (st, .error .flagFailure)

/-- `ImapService.moveEmail` (imap-service.ts lines 629-639): select the
source folder, then issue one `move(uid, destinationFolder)`; no membership
validation is performed. -/
def moveEmail (src dst : FolderSt) (uids : List Nat) (ok : Bool) :
    (FolderSt × FolderSt) × Except ImapError Unit :=
  if ok then (connMove src dst uids, .ok ())
  else ((src, dst), .error .moveFailure)

end ImapService

/-- The `activeConnections` map of `ImapService`, keyed by account id; a live
connection object is abstracted as a `Nat` handle. -/
abbrev ConnMap := List (String × Nat)

/-- `activeConnections.has(account.id)`. -/
def hasConn (m : ConnMap) (accountId : String) : Bool :=
  m.any fun p => p.1 == accountId

/-- The number of registered sessions for one account id. -/
def sessionCount (m : ConnMap) (accountId : String) : Nat :=
  (m.filter fun p => p.1 == accountId).length

namespace ImapService

/-- `ImapService.connect` (imap-service.ts lines 408-436): return at once when
`activeConnections` already has the account id; otherwise open a connection
(`handshakeOk` injects the `ready` versus `error` event) and register it under
the account id on `ready`; on `error` reject without registering anything. -/
def connect (m : ConnMap) (accountId : String) (handshakeOk : Bool) (conn : Nat) :
    ConnMap × Except ImapError Unit :=
  if hasConn m accountId then (m, .ok ())
  else if handshakeOk then ((accountId, conn) :: m, .ok ())
  else (m, .error .connectionFailure)

end ImapService

/-- The recipient computation of the `imap_reply_to_email` handler
(email-tools.ts lines 319-322): `const recipients = [originalEmail.from]`,
then when `replyAll` is set, `recipients.push(...originalEmail.to.filter(addr
=> addr !== account.user))`. -/
def replyRecipients («from» : String) («to» : List String) (accountUser : String)
    (replyAll : Bool) : List String :=
  let recipients := [«from»]
  if replyAll then recipients ++ «to».filter (fun addr => addr != accountUser)
  else recipients

/-- Model of `String.prototype.startsWith(pre)`: the characters of `pre` are
an initial segment of the characters of `s`, compared exactly and
case-sensitively. -/
def strStartsWith (s pre : String) : Bool :=
  pre.toList.isPrefixOf s.toList

/-- The reply subject computation of the `imap_reply_to_email` handler
(email-tools.ts line 327): `originalEmail.subject.startsWith('Re: ') ?
originalEmail.subject : 'Re: ' + originalEmail.subject`. -/
def replySubject (subject : String) : String :=
  if strStartsWith subject "Re: " then subject else "Re: " ++ subject

/-- The forward subject computation of the `imap_forward_email` handler
(email-tools.ts line 380): `originalEmail.subject.startsWith('Fwd: ') ?
originalEmail.subject : 'Fwd: ' + originalEmail.subject`. -/
def forwardSubject (subject : String) : String :=
  if strStartsWith subject "Fwd: " then subject else "Fwd: " ++ subject

/-- The error a mark/delete/move tool handler can raise on its own: the
`throw new Error('Either uid or uids parameter is required')` path, which the
specification's taxonomy names `ValidationError`. -/
inductive ToolError where
  | validationError
deriving DecidableEq, Repr

/-- The scalar-or-batch uid argument passed on to the service. -/
inductive UidArg where
  | single (uid : Nat)
  | batch (uids : List Nat)
deriving DecidableEq, Repr

/-- The shared uid-resolution logic of the `imap_mark_as_read`,
`imap_mark_as_unread`, `imap_delete_email` and `imap_move_email` handlers
(email-tools.ts lines 90-96, 122-128, 154-160, 187-192):
`const uidToProcess = uids || uid` followed by
`if (uidToProcess === undefined) throw ...`. A supplied `uids` array is
always truthy in JavaScript — even when empty — so it takes precedence;
otherwise a supplied scalar `uid` is used (the check is `=== undefined`, so
`uid = 0` passes); with neither supplied, the handler throws before the
service is called. -/
def resolveUidArg (uid : Option Nat) (uids : Option (List Nat)) :
    Except ToolError UidArg :=
  match uids with
  | some l => .ok (.batch l)
  | none =>
    match uid with
    | some u => .ok (.single u)
    | none => .error .validationError

/-- The `imap_mark_as_read` handler (email-tools.ts lines 90-96): resolve the
uid argument, throwing before any service call when neither parameter is
supplied, and otherwise call `imapService.markAsRead` with it (a scalar is
passed through as a one-element batch at the protocol layer). -/
def markAsReadHandler (st : FolderSt) (uid : Option Nat) (uids : Option (List Nat))
    (ok : Bool) : Except ToolError (FolderSt × Except ImapError Unit) :=
  match resolveUidArg uid uids with
  | .error e => .error e
  | .ok (.single u) => .ok (ImapService.markAsRead st [u] ok)
  | .ok (.batch l) => .ok (ImapService.markAsRead st l ok)

/-- One node of the `boxes` object that `node-imap` hands to `getBoxes`: its
`delimiter`, its `attribs`, and — when the `children` property is set — the
ordered name-keyed children entries. -/
inductive BoxData where
  | mk (delimiter : String) (attribs : List String)
      (children : Option (List (String × BoxData)))

/-- The `delimiter` property of a box. -/
def BoxData.delimiter : BoxData → String
  | .mk d _ _ => d

/-- The `Folder` objects built by `ImapService.parseBoxes`. -/
inductive Folder where
  | mk (name : String) (delimiter : String) (attributes : List String)
      (children : Option (List Folder))

/-- The `name` property of a parsed folder. -/
def Folder.name : Folder → String
  | .mk n _ _ _ => n

/-- The `delimiter` property of a parsed folder. -/
def Folder.delimiter : Folder → String
  | .mk _ d _ _ => d

/-- The `children` property of a parsed folder. -/
def Folder.children : Folder → Option (List Folder)
  | .mk _ _ _ c => c

namespace ImapService

/-- `ImapService.parseBoxes` (imap-service.ts lines 649-668): for each
`[name, box]` entry, the folder's name is `parentPath` joined to `name` by
`boxData.delimiter` — the delimiter of the entry itself — unless `parentPath`
is the empty string (falsy), in which case it is the bare `name`; when the
entry has a `children` property the children are parsed recursively with the
folder's full name as the new parent path. -/
def parseBoxes : List (String × BoxData) → String → List Folder
  | [], _ => []
  | (name, BoxData.mk delimiter attribs children) :: rest, parentPath =>
    let fname := if parentPath = "" then name else parentPath ++ delimiter ++ name
    Folder.mk fname delimiter attribs
        (match children with
          | some cs => some (parseBoxes cs fname)
          | none => none) ::
      parseBoxes rest parentPath

end ImapService

/-- The naming discipline the amended claim asserts of `parseBoxes` output,
checked recursively against the input tree: each produced folder's name is
the parent path joined to the entry's leaf name by the entry's own delimiter
(the bare leaf name at the root, where the parent path is empty), and its
children satisfy the same discipline below the folder's full name. -/
def matchesBoxes : String → List (String × BoxData) → List Folder → Bool
  | _, [], [] => true
  | parentPath, (name, BoxData.mk delimiter _ children) :: bs, f :: fs =>
    (f.name == (if parentPath = "" then name else parentPath ++ delimiter ++ name)) &&
      (match children, f.children with
        | none, none => true
        | some cbs, some cfs => matchesBoxes f.name cbs cfs
        | _, _ => false) &&
      matchesBoxes parentPath bs fs
  | _, _, _ => false

lemma textTerm_length (key : String) (o : Option String) :
    (textTerm key o).length = if truthyStr o then 1 else 0 := by
  cases o with
  | none => rfl
  | some s =>
    by_cases h : s = "" <;> simp [textTerm, truthyStr, h]

lemma dateTerm_length (key : String) (o : Option Nat) :
    (dateTerm key o).length = if o.isSome then 1 else 0 := by
  cases o <;> rfl

lemma triTerm_length (pos neg : String) (o : Option Bool) :
    (triTerm pos neg o).length = if o.isSome then 1 else 0 := by
  cases o <;> rfl

lemma specOrderedTerms_length (c : SearchCriteria) :
    (specOrderedTerms c).length = countTruthy c := by
  simp only [specOrderedTerms, List.length_append, textTerm_length, dateTerm_length,
    triTerm_length, countTruthy]

lemma buildSearchCriteria_eq_specOrderedTerms (c : SearchCriteria) :
    ImapService.buildSearchCriteria c =
      if (specOrderedTerms c).length > 0 then specOrderedTerms c
      else [SearchTerm.atom "ALL"] := by
  simp only [ImapService.buildSearchCriteria, specOrderedTerms, List.nil_append,
    List.append_assoc]

lemma contains_eq_true_of_mem {l : List Nat} {a : Nat} (h : a ∈ l) :
    l.contains a = true := by
  simpa [List.contains] using List.elem_iff.mpr h

lemma mem_flags_connAddFlags (st : FolderSt) (uids : List Nat) (flag : String)
    (m : Msg) (hm : m ∈ connAddFlags st uids flag) (hu : m.uid ∈ uids) :
    flag ∈ m.flags := by
  simp only [connAddFlags, List.mem_map] at hm
  obtain ⟨m0, hm0, hfm⟩ := hm
  by_cases hc : uids.contains m0.uid
  · rw [if_pos hc] at hfm
    subst hfm
    show flag ∈ if m0.flags.contains flag = true then m0.flags else m0.flags ++ [flag]
    by_cases hf : m0.flags.contains flag = true
    · rw [if_pos hf]
      exact List.mem_of_elem_eq_true hf
    · rw [if_neg hf]
      exact List.mem_append_right _ (List.mem_singleton.mpr rfl)
  · rw [if_neg hc] at hfm
    subst hfm
    exact absurd (contains_eq_true_of_mem hu) hc

lemma connAddFlags_nil (st : FolderSt) (flag : String) :
    connAddFlags st [] flag = st := by
  simp [connAddFlags]

lemma sessionCount_eq_zero (m : ConnMap) (a : String) (h : hasConn m a = false) :
    sessionCount m a = 0 := by
  induction m with
  | nil => rfl
  | cons p rest ih =>
    simp only [hasConn, List.any_cons, Bool.or_eq_false_iff] at h
    simp only [sessionCount, List.filter_cons, h.1, List.length_cons]
    exact ih (by simp [hasConn, h.2])

/-- C1: the batch mutation paths have no membership validation and no
partial-batch error: on the folder `{1, 2, 3}` (all unseen), the batch
`[1, 2, 99]` — uid 99 absent — succeeds for mark-as-read, mutating uids 1
and 2 to `\Seen`, and succeeds for move, moving uids 1 and 2; the claimed
total failure with a `PartialBatchFailureError` and no observable mutation
does not happen (no such error exists in the code). -/
theorem markAsRead_partial_batch_success :
    ImapService.markAsRead [⟨1, []⟩, ⟨2, []⟩, ⟨3, []⟩] [1, 2, 99] true =
      ([⟨1, ["\\Seen"]⟩, ⟨2, ["\\Seen"]⟩, ⟨3, []⟩], Except.ok ()) ∧
    ImapService.moveEmail [⟨1, []⟩, ⟨2, []⟩, ⟨3, []⟩] [] [1, 2, 99] true =
      (([⟨3, []⟩], [⟨1, []⟩, ⟨2, []⟩]), Except.ok ()) := ⟨rfl, rfl⟩

/-- C2 counterexample: after a failed expunge on the one-message folder
`[{uid 1, no flags}]`, `deleteEmail` returns the expunge error with the
message still flagged `\Deleted`; the compensating unflag the claim asserts
(which the library's `delFlags` would perform, restoring the unflagged
state) is never attempted, as the differing states show. -/
theorem deleteEmail_no_unflag_counterexample :
    ImapService.deleteEmail [⟨1, []⟩] [1] true false =
      ([⟨1, ["\\Deleted"]⟩], Except.error ImapError.expungeFailure) ∧
    connDelFlags (connAddFlags [⟨1, []⟩] [1] "\\Deleted") [1] "\\Deleted" = [⟨1, []⟩] ∧
    ([⟨1, ["\\Deleted"]⟩] : FolderSt) ≠ [⟨1, []⟩] := by
  refine ⟨rfl, rfl, by decide⟩

/-- C2 (amended): `deleteEmail` sets `\Deleted` and then expunges; a failure
at the flag step is reported with the folder unchanged; a failure of the
expunge is reported to the caller as the expunge error, with every targeted
message still flagged `\Deleted` — no compensating unflag is attempted. -/
theorem deleteEmail_flag_then_expunge (st : FolderSt) (uids : List Nat) :
    (∀ e, ImapService.deleteEmail st uids false e =
        (st, Except.error ImapError.flagFailure)) ∧
    ImapService.deleteEmail st uids true false =
      (connAddFlags st uids "\\Deleted", Except.error ImapError.expungeFailure) ∧
    ImapService.deleteEmail st uids true true =
      (connExpunge (connAddFlags st uids "\\Deleted"), Except.ok ()) ∧
    (∀ m ∈ (ImapService.deleteEmail st uids true false).1,
        m.uid ∈ uids → "\\Deleted" ∈ m.flags) := by
  refine ⟨fun e => rfl, rfl, rfl, fun m hm hu => ?_⟩
  exact mem_flags_connAddFlags st uids "\\Deleted" m hm hu

/-- C3: a `SearchCriteria` with no predicate set translates to exactly the
single match-all sentinel `['ALL']`. -/
theorem buildSearchCriteria_no_predicates (c : SearchCriteria)
    (h1 : c.«from» = none) (h2 : c.«to» = none) (h3 : c.subject = none)
    (h4 : c.body = none) (h5 : c.since = none) (h6 : c.before = none)
    (h7 : c.seen = none) (h8 : c.flagged = none) (h9 : c.answered = none)
    (h10 : c.draft = none) :
    ImapService.buildSearchCriteria c = [SearchTerm.atom "ALL"] := by
  rcases c with ⟨f, t, su, b, si, be, se, fl, an, dr⟩
  simp only at h1 h2 h3 h4 h5 h6 h7 h8 h9 h10
  subst h1 h2 h3 h4 h5 h6 h7 h8 h9 h10
  rfl

theorem buildSearchCriteria_no_predicates_witness :
    ImapService.buildSearchCriteria {} = [SearchTerm.atom "ALL"] :=
  buildSearchCriteria_no_predicates {} rfl rfl rfl rfl rfl rfl rfl rfl rfl rfl

/-- C4 counterexample: the criteria with `from` set to the empty string and
`to` set to `"x"` has two set predicates, but only one term is produced —
the truthiness guard `if (criteria.from)` skips a present empty string, so
the term count does not equal the number of non-unset predicates. -/
theorem buildSearchCriteria_count_counterexample :
    0 < countSet { «from» := some "", «to» := some "x" } ∧
    (ImapService.buildSearchCriteria { «from» := some "", «to» := some "x" }).length ≠
      countSet { «from» := some "", «to» := some "x" } := by
  constructor
  · decide
  · decide

/-- C4 (amended): for criteria with at least one truthy predicate, the term
count equals the number of truthy predicates (text predicates count only
when non-empty; date and tri-state predicates whenever set), and the output
is exactly the terms in the fixed field order FROM, TO, SUBJECT, BODY,
SINCE, BEFORE, SEEN, FLAGGED, ANSWERED, DRAFT. -/
theorem buildSearchCriteria_term_count (c : SearchCriteria)
    (h : 0 < countTruthy c) :
    (ImapService.buildSearchCriteria c).length = countTruthy c ∧
    ImapService.buildSearchCriteria c = specOrderedTerms c := by
  have hlen := specOrderedTerms_length c
  have hb := buildSearchCriteria_eq_specOrderedTerms c
  have hpos : (specOrderedTerms c).length > 0 := by rw [hlen]; exact h
  rw [hb, if_pos hpos]
  exact ⟨hlen, rfl⟩

theorem buildSearchCriteria_term_count_witness :
    (ImapService.buildSearchCriteria { «from» := some "a" }).length =
      countTruthy { «from» := some "a" } ∧
    ImapService.buildSearchCriteria { «from» := some "a" } =
      specOrderedTerms { «from» := some "a" } :=
  buildSearchCriteria_term_count { «from» := some "a" } (by decide)

/-- C5: `connect` is a no-op returning success whenever a session is already
registered for the account id, and after two consecutive `connect` calls for
an account that had none (the first handshake succeeding), exactly one
session is registered for that account id. -/
theorem connect_idempotent (m : ConnMap) (accountId : String) (ok : Bool)
    (c1 c2 : Nat) (h : hasConn m accountId = false) :
    (∀ m' : ConnMap, hasConn m' accountId = true →
        ImapService.connect m' accountId ok c2 = (m', Except.ok ())) ∧
    ImapService.connect ((ImapService.connect m accountId true c1).1) accountId ok c2 =
      ((ImapService.connect m accountId true c1).1, Except.ok ()) ∧
    sessionCount
        ((ImapService.connect ((ImapService.connect m accountId true c1).1)
          accountId ok c2).1) accountId = 1 := by
  have hstep : (ImapService.connect m accountId true c1).1 = (accountId, c1) :: m := by
    simp [ImapService.connect, h]
  have hhas : hasConn ((accountId, c1) :: m) accountId = true := by
    simp [hasConn]
  have hnoop : ∀ m' : ConnMap, hasConn m' accountId = true →
      ImapService.connect m' accountId ok c2 = (m', Except.ok ()) := by
    intro m' hm'
    simp [ImapService.connect, hm']
  refine ⟨hnoop, ?_, ?_⟩
  · rw [hstep]
    exact hnoop _ hhas
  · rw [hstep, hnoop _ hhas]
    simp only [sessionCount, List.filter_cons, beq_self_eq_true, if_pos, List.length_cons]
    have := sessionCount_eq_zero m accountId h
    simp only [sessionCount] at this
    simp [this]

theorem connect_idempotent_witness :
    (∀ m' : ConnMap, hasConn m' "a" = true →
        ImapService.connect m' "a" true 1 = (m', Except.ok ())) ∧
    ImapService.connect ((ImapService.connect [] "a" true 0).1) "a" true 1 =
      ((ImapService.connect [] "a" true 0).1, Except.ok ()) ∧
    sessionCount
        ((ImapService.connect ((ImapService.connect [] "a" true 0).1) "a" true 1).1)
        "a" = 1 :=
  connect_idempotent [] "a" true 0 1 rfl

/-- C6 counterexample: replying-all to a message whose sender also appears
among the original recipients duplicates the sender — the code pushes
`originalEmail.from` and then every filtered recipient without
de-duplication, so the recipient list `["bob", "bob", "carol"]` has a
duplicate, contradicting the no-duplicates clause of the claim. -/
theorem replyRecipients_duplicate_counterexample :
    replyRecipients "bob" ["bob", "carol"] "me" true = ["bob", "bob", "carol"] ∧
    ¬ (replyRecipients "bob" ["bob", "carol"] "me" true).Nodup := by
  refine ⟨rfl, by decide⟩

/-- C6 (amended): with `replyAll=false` the recipient list is exactly the
original sender; with `replyAll=true` it is the original sender followed by
every original recipient other than the acting account's own address, in
original order and without de-duplication — an address is in the list iff it
is the sender or a non-own original recipient. -/
theorem replyRecipients_spec («from» : String) («to» : List String)
    (accountUser : String) :
    replyRecipients «from» «to» accountUser false = [«from»] ∧
    replyRecipients «from» «to» accountUser true =
      «from» :: «to».filter (fun addr => addr != accountUser) ∧
    (∀ a, a ∈ replyRecipients «from» «to» accountUser true ↔
        a = «from» ∨ (a ∈ «to» ∧ a ≠ accountUser)) := by
  refine ⟨rfl, rfl, fun a => ?_⟩
  simp [replyRecipients, List.mem_filter]

/-- C7: subject prefixing is idempotent and case-sensitive: a subject
already starting with the exact prefix `"Re: "` is left unchanged by reply
composition, one already starting with `"Fwd: "` is left unchanged by
forward composition, while the differently-cased `"RE: "`/`"FWD: "` do not
count as the prefix and are prefixed again. -/
theorem subject_prefix_idempotent :
    (∀ s : String, strStartsWith s "Re: " = true → replySubject s = s) ∧
    (∀ s : String, strStartsWith s "Fwd: " = true → forwardSubject s = s) ∧
    replySubject "Re: x" = "Re: x" ∧
    forwardSubject "Fwd: x" = "Fwd: x" ∧
    replySubject "RE: x" = "Re: RE: x" ∧
    forwardSubject "FWD: x" = "Fwd: FWD: x" := by
  refine ⟨fun s h => ?_, fun s h => ?_, by decide, by decide, by decide, by decide⟩
  · simp [replySubject, h]
  · simp [forwardSubject, h]

/-- C8 counterexample: a root folder `A` with delimiter `/` whose child
entry `B` carries its own delimiter `.`: the code joins the child's name
with the child's own `boxData.delimiter`, producing `A.B`, not the parent
folder's delimiter as the claim asserts, which would give `A/B`. -/
theorem parseBoxes_delimiter_counterexample :
    ImapService.parseBoxes
        [("A", BoxData.mk "/" [] (some [("B", BoxData.mk "." [] none)]))] "" =
      [Folder.mk "A" "/" [] (some [Folder.mk "A.B" "." [] none])] ∧
    ("A.B" : String) ≠ "A" ++ "/" ++ "B" := by
  constructor
  · simp [ImapService.parseBoxes]
  · decide

/-- C8 (amended): at every depth of any server-supplied folder tree, the
name of each produced folder is the parent path joined to the entry's leaf
name by the entry's own delimiter (the bare leaf name at the root), as
checked recursively by `matchesBoxes`. -/
theorem parseBoxes_child_names (boxes : List (String × BoxData)) (parent : String) :
    matchesBoxes parent boxes (ImapService.parseBoxes boxes parent) = true := by
  induction boxes, parent using ImapService.parseBoxes.induct with
  | case1 parent =>
    rw [ImapService.parseBoxes.eq_def, matchesBoxes.eq_def]
  | case2 name delimiter attribs children rest parentPath fname ih1 ih2 =>
    rw [ImapService.parseBoxes.eq_def, matchesBoxes.eq_def]
    cases children with
    | none => simp [Folder.name, Folder.children, ih2]
    | some cs =>
      simp only [Folder.name, Folder.children, ih2, Bool.and_true, beq_self_eq_true,
        Bool.true_and]
      exact ih1

/-- C9: a mark/delete/move tool invocation with neither `uid` nor `uids`
fails with the validation error before the service is ever called; when
both a scalar `uid` and a `uids` sequence are supplied, the sequence takes
precedence and is what reaches the service. -/
theorem handler_requires_uid (st : FolderSt) (u : Nat) (l : List Nat) (ok : Bool) :
    markAsReadHandler st none none ok = Except.error ToolError.validationError ∧
    resolveUidArg none none = Except.error ToolError.validationError ∧
    markAsReadHandler st (some u) (some l) ok =
      Except.ok (ImapService.markAsRead st l ok) ∧
    resolveUidArg (some u) (some l) = Except.ok (UidArg.batch l) :=
  ⟨rfl, rfl, rfl, rfl⟩

/-- C10: an empty `uids` array is truthy, so the required-parameter check
passes: it takes precedence over any scalar `uid` also supplied and the
operation proceeds with zero target uids — a successful no-op on the folder
rather than a validation error. -/
theorem handler_empty_uids (st : FolderSt) (uid : Option Nat) (ok : Bool) :
    resolveUidArg uid (some []) = Except.ok (UidArg.batch []) ∧
    markAsReadHandler st uid (some []) ok =
      Except.ok (ImapService.markAsRead st [] ok) ∧
    ImapService.markAsRead st [] true = (st, Except.ok ()) := by
  refine ⟨rfl, rfl, ?_⟩
  simp [ImapService.markAsRead, connAddFlags_nil]
